import Mathlib

/-!
Shallow embedding of the SIAVPN connection core: the `VpnSecurityManager`
security gate, the `VpnConnectionManager` connection state machine, and the
`OpenVpnProtocol` transport wrapper, translated from the C++ sources.
-/

namespace SIAVPN

/-- `VpnStatus` from vpnProtocol.h:
`enum class VpnStatus { Disconnected, Connecting, Connected, Error };` -/
inductive VpnStatus
  | Disconnected
  | Connecting
  | Connected
  | Error
deriving DecidableEq, Repr

/-! ## VpnSecurityManager (security gate)

State of a `VpnSecurityManager` object: the two boolean policy flags from
vpnSecurityManager.h plus the firewall filter currently installed by the
private helpers `setupBasicFirewallRules` / `blockAllTraffic` /
`removeFirewallRules` (the platform-specific bodies are placeholders that
only install/remove the corresponding rule set). -/

/-- Which firewall rule set is currently installed. -/
inductive FirewallFilter
  | noRules
  | basicRules
  | blockAll
deriving DecidableEq, Repr

structure SecurityState where
  communicationBlocked : Bool
  killSwitchEnabled : Bool
  installedFilter : FirewallFilter
deriving DecidableEq, Repr

namespace VpnSecurityManager

/-- Constructor `VpnSecurityManager::VpnSecurityManager()`:
`communicationBlocked(true), killSwitchEnabled(false)`; no firewall rules
have been installed yet. -/
def init : SecurityState :=
  { communicationBlocked := true, killSwitchEnabled := false,
    installedFilter := FirewallFilter.noRules }

/-- `VpnSecurityManager::setupBasicFirewallRules()`. -/
def setupBasicFirewallRules (s : SecurityState) : SecurityState :=
  { s with installedFilter := FirewallFilter.basicRules }

/-- `VpnSecurityManager::removeFirewallRules()`. -/
def removeFirewallRules (s : SecurityState) : SecurityState :=
  { s with installedFilter := FirewallFilter.noRules }

/-- `VpnSecurityManager::blockAllTraffic()` (kill-switch mode). -/
def blockAllTraffic (s : SecurityState) : SecurityState :=
  { s with installedFilter := FirewallFilter.blockAll }

/-- `VpnSecurityManager::blockCommunication()`: set the flag, then install
the kill-switch filter when the kill switch is enabled, the basic filter
otherwise. -/
def blockCommunication (s : SecurityState) : SecurityState :=
  let s1 := { s with communicationBlocked := true }
  if s1.killSwitchEnabled then blockAllTraffic s1 else setupBasicFirewallRules s1

/-- `VpnSecurityManager::unblockCommunication()`. -/
def unblockCommunication (s : SecurityState) : SecurityState :=
  removeFirewallRules { s with communicationBlocked := false }

/-- `VpnSecurityManager::allowCommunicationWithoutVpn()`. -/
def allowCommunicationWithoutVpn (s : SecurityState) : SecurityState :=
  removeFirewallRules { s with communicationBlocked := false }

/-- `VpnSecurityManager::enableKillSwitch()`. -/
def enableKillSwitch (s : SecurityState) : SecurityState :=
  let s1 := { s with killSwitchEnabled := true }
  if s1.communicationBlocked then blockAllTraffic s1 else s1

/-- `VpnSecurityManager::disableKillSwitch()`: clear the flag, then fall
back to no rules when unblocked, to the basic filter when still blocked. -/
def disableKillSwitch (s : SecurityState) : SecurityState :=
  let s1 := { s with killSwitchEnabled := false }
  if !s1.communicationBlocked then removeFirewallRules s1
  else setupBasicFirewallRules s1

/-- `VpnSecurityManager::isCommunicationBlocked()`. -/
def isCommunicationBlocked (s : SecurityState) : Bool :=
  s.communicationBlocked

/-- `VpnSecurityManager::isKillSwitchEnabled()`. -/
def isKillSwitchEnabled (s : SecurityState) : Bool :=
  s.killSwitchEnabled

end VpnSecurityManager

/-- C1: at construction of the security gate, `communicationBlocked` is true
and `killSwitchEnabled` is false, so `isCommunicationBlocked()` returns true
and `isKillSwitchEnabled()` returns false before any other operation. -/
theorem C1_fail_closed_default :
    VpnSecurityManager.isCommunicationBlocked VpnSecurityManager.init = true ∧
    VpnSecurityManager.isKillSwitchEnabled VpnSecurityManager.init = false := by
  decide

/-- Helper: `blockCommunication` keeps the kill-switch filter installed as
long as the kill switch is enabled, however often it is iterated. -/
theorem blockCommunication_iterate_blockAll (n : Nat) (s : SecurityState)
    (hk : s.killSwitchEnabled = true) :
    (VpnSecurityManager.blockCommunication^[n + 1] s).installedFilter
      = FirewallFilter.blockAll := by
  induction n generalizing s with
  | zero =>
      simp [Function.iterate_one, VpnSecurityManager.blockCommunication,
        VpnSecurityManager.blockAllTraffic, hk]
  | succ m ih =>
      rw [Function.iterate_succ_apply]
      exact ih _ (by
        simp [VpnSecurityManager.blockCommunication,
          VpnSecurityManager.blockAllTraffic, hk])

/-- C6: with the kill switch enabled, any (repeated) number of
`blockCommunication()` calls installs the deny-all-except-VPN filter, not the
basic one; and `disableKillSwitch()` while communication is still blocked
installs the basic filter, never leaving traffic unfiltered. -/
theorem C6_kill_switch_precedence (s : SecurityState) (n : Nat)
    (hk : VpnSecurityManager.isKillSwitchEnabled s = true)
    (hb : VpnSecurityManager.isCommunicationBlocked s = true) :
    (VpnSecurityManager.blockCommunication^[n + 1] s).installedFilter
        = FirewallFilter.blockAll ∧
    (VpnSecurityManager.disableKillSwitch s).installedFilter
        = FirewallFilter.basicRules ∧
    (VpnSecurityManager.disableKillSwitch s).installedFilter
        ≠ FirewallFilter.noRules := by
  have hk' : s.killSwitchEnabled = true := hk
  have hb' : s.communicationBlocked = true := hb
  refine ⟨blockCommunication_iterate_blockAll n s hk', ?_, ?_⟩
  · simp [VpnSecurityManager.disableKillSwitch,
      VpnSecurityManager.setupBasicFirewallRules,
      VpnSecurityManager.removeFirewallRules, hb']
  · simp [VpnSecurityManager.disableKillSwitch,
      VpnSecurityManager.setupBasicFirewallRules,
      VpnSecurityManager.removeFirewallRules, hb']

/-- Witness for C6 at a concrete state (blocked, kill switch on) with two
repeated block calls. -/
theorem C6_kill_switch_precedence_witness :
    (VpnSecurityManager.blockCommunication^[2]
      { communicationBlocked := true, killSwitchEnabled := true,
        installedFilter := FirewallFilter.noRules : SecurityState }).installedFilter
        = FirewallFilter.blockAll := by
  have h := C6_kill_switch_precedence
    { communicationBlocked := true, killSwitchEnabled := true,
      installedFilter := FirewallFilter.noRules } 1 (by decide) (by decide)
  exact h.1

/-- C9: `allowCommunicationWithoutVpn()` has exactly the same effect on the
security-gate state (both flags and the installed filter) as
`unblockCommunication()`, for every starting state: both leave
`communicationBlocked` false and remove the installed firewall rules. -/
theorem C9_allow_without_vpn_equals_unblock (s : SecurityState) :
    VpnSecurityManager.allowCommunicationWithoutVpn s
      = VpnSecurityManager.unblockCommunication s ∧
    (VpnSecurityManager.allowCommunicationWithoutVpn s).communicationBlocked
      = false ∧
    (VpnSecurityManager.allowCommunicationWithoutVpn s).installedFilter
      = FirewallFilter.noRules := by
  exact ⟨rfl, rfl, rfl⟩

/-! ## VpnConnectionManager (connection lifecycle state machine)

Translated from vpnConnectionManager.cpp.  The mutable members guarded by
`statusMutex` plus the two atomics become `MgrState`; each method becomes a
state-passing function.  `clientStopped` records whether
`vpnClient->stopConnection()` has been called on the `OpenVpnClient`.
Side effects of `updateStatus` (the `statusCv.notify_all()` and the
`statusCallback` invocation) are returned as `StatusEffect` values so that
observer-notification traces can be stated. -/

/-- A `(VpnStatus, message)` pair handed to the status callback. -/
structure Notification where
  status : VpnStatus
  message : String
deriving DecidableEq, Repr

/-- Observable effects of one `updateStatus` call: the unconditional
`notify_all`, whether the status callback ran (it runs iff a callback is
set), and the pair it was invoked with. -/
structure StatusEffect where
  cvNotifiedAll : Bool
  callbackInvoked : Bool
  notified : Notification
deriving DecidableEq, Repr

structure MgrState where
  currentStatus : VpnStatus
  lastError : String
  shouldStop : Bool
  connectionInProgress : Bool
  clientStopped : Bool
deriving DecidableEq, Repr

/-- Outcome of `loadConfigFromFile` / `createConfig` / `validateConfig` as
observed inside `prepareConfiguration` (the `VpnConfigManager` is an
external collaborator: it throws, returns empty content, reports an invalid
config, or reports a valid one with warnings). -/
inductive ConfigOutcome
  | loadThrows (msg : String)
  | loadEmpty
  | invalid (msg : String)
  | valid (warnings : List String)
deriving DecidableEq, Repr

/-- Outcome of `vpnClient->startConnection` as observed inside
`initiateConnection`. -/
inductive StartOutcome
  | startFails (err : String)
  | started
deriving DecidableEq, Repr

namespace VpnConnectionManager

/-- Constructor `VpnConnectionManager::VpnConnectionManager()`. -/
def initState : MgrState :=
  { currentStatus := VpnStatus.Disconnected, lastError := "",
    shouldStop := false, connectionInProgress := false, clientStopped := false }

/-- `VpnConnectionManager::updateStatus`: set `currentStatus`, overwrite
`lastError` only for a non-empty message, `notify_all`, invoke the callback
when one is set (`callbackSet`). -/
def updateStatus (callbackSet : Bool) (s : MgrState) (newStatus : VpnStatus)
    (message : String) : MgrState × StatusEffect :=
  ({ s with currentStatus := newStatus,
            lastError := if message = "" then s.lastError else message },
   { cvNotifiedAll := true, callbackInvoked := callbackSet,
     notified := { status := newStatus, message := message } })

/-- `VpnConnectionManager::handleConnectionComplete`. -/
def handleConnectionComplete (cb : Bool) (s : MgrState) (success : Bool)
    (error : String) : MgrState × StatusEffect :=
  if success then
    updateStatus cb s VpnStatus.Connected "VPN connection established successfully"
  else
    updateStatus cb s VpnStatus.Error (if error = "" then "Connection failed" else error)

/-- `VpnConnectionManager::handleConnectionEvent`: map a named client event
to a status update; unrecognized events only go to `handleLogMessage(3, ...)`
which writes to stdout and changes nothing. -/
def handleConnectionEvent (cb : Bool) (s : MgrState) (eventName info : String) :
    MgrState × List StatusEffect :=
  if eventName = "CONNECTED" then
    let p := updateStatus cb s VpnStatus.Connected "VPN connection established"
    (p.1, [p.2])
  else if eventName = "DISCONNECTED" then
    let p := updateStatus cb s VpnStatus.Disconnected
      (if info = "" then "Disconnected" else info)
    (p.1, [p.2])
  else if eventName = "RECONNECTING" then
    let p := updateStatus cb s VpnStatus.Connecting "Reconnecting..."
    (p.1, [p.2])
  else if eventName = "CONNECTING" then
    let p := updateStatus cb s VpnStatus.Connecting info
    (p.1, [p.2])
  else if eventName = "PAUSED" then
    let p := updateStatus cb s VpnStatus.Disconnected "Connection paused"
    (p.1, [p.2])
  else if eventName = "RESUMED" then
    let p := updateStatus cb s VpnStatus.Connecting "Connection resumed"
    (p.1, [p.2])
  else
    (s, [])

/-- Deliver a list of client `(eventName, info)` events in order through
`handleConnectionEvent`. -/
def processEvents (cb : Bool) (s : MgrState) :
    List (String × String) → MgrState × List StatusEffect
  | [] => (s, [])
  | e :: rest =>
      let p := handleConnectionEvent cb s e.1 e.2
      let q := processEvents cb p.1 rest
      (q.1, p.2 ++ q.2)

/-- `VpnConnectionManager::prepareConfiguration`, phase 1 of
`performConnection`.  Returns `(phase result, state, notifications)`. -/
def prepareConfiguration (cb : Bool) (s : MgrState) (co : ConfigOutcome) :
    Bool × MgrState × List StatusEffect :=
  let p1 := updateStatus cb s VpnStatus.Connecting "Loading configuration..."
  match co with
  | ConfigOutcome.loadThrows msg =>
      let p2 := handleConnectionComplete cb p1.1 false
        ("Configuration preparation failed: " ++ msg)
      (false, p2.1, [p1.2, p2.2])
  | ConfigOutcome.loadEmpty =>
      let p2 := handleConnectionComplete cb p1.1 false
        "Failed to read configuration file"
      (false, p2.1, [p1.2, p2.2])
  | ConfigOutcome.invalid msg =>
      let p2 := handleConnectionComplete cb p1.1 false
        ("Configuration validation failed: " ++ msg)
      (false, p2.1, [p1.2, p2.2])
  | ConfigOutcome.valid _ =>
      let p2 := updateStatus cb p1.1 VpnStatus.Connecting
        "Configuration validated successfully"
      (true, p2.1, [p1.2, p2.2])

/-- `VpnConnectionManager::initiateConnection`, phase 2 of
`performConnection`. -/
def initiateConnection (cb : Bool) (s : MgrState) (so : StartOutcome) :
    Bool × MgrState × List StatusEffect :=
  let p1 := updateStatus cb s VpnStatus.Connecting "Establishing connection..."
  match so with
  | StartOutcome.startFails err =>
      let p2 := handleConnectionComplete cb p1.1 false
        ("Failed to start connection: " ++ err)
      (false, p2.1, [p1.2, p2.2])
  | StartOutcome.started =>
      let p2 := updateStatus cb p1.1 VpnStatus.Connecting
        "Connection initiated successfully"
      (true, p2.1, [p1.2, p2.2])

/-- The predicate `statusCv.wait_for` waits on: state `Connected` or `Error`
or `shouldStop`.  `wait_for` with a predicate returns the predicate's value
at wake-up, so `completed` equals this predicate on the wake-up state. -/
def connPred (s : MgrState) : Bool :=
  s.currentStatus == VpnStatus.Connected ||
  s.currentStatus == VpnStatus.Error || s.shouldStop

/-- `VpnConnectionManager::waitForConnectionCompletion`, phase 3: emit the
"Waiting..." update, then wait while client events (`duringWait`) are
delivered through `handleConnectionEvent` and a concurrent `disconnect()`
may set `shouldStop` (`cancelRequested`); branch as the source does on
`shouldStop`, `completed`, and the status at wake-up. -/
def waitForConnectionCompletion (cb : Bool) (s : MgrState)
    (duringWait : List (String × String)) (cancelRequested : Bool) :
    Bool × MgrState × List StatusEffect :=
  let p1 := updateStatus cb s VpnStatus.Connecting
    "Waiting for connection establishment..."
  let q := processEvents cb p1.1 duringWait
  let s2 := if cancelRequested then { q.1 with shouldStop := true } else q.1
  let completed := connPred s2
  if s2.shouldStop then
    let p3 := handleConnectionComplete cb s2 false "Connection cancelled by user"
    (false, p3.1, p1.2 :: q.2 ++ [p3.2])
  else if !completed then
    let p3 := handleConnectionComplete cb s2 false
      "Connection timeout - unable to establish VPN tunnel"
    (false, p3.1, p1.2 :: q.2 ++ [p3.2])
  else if s2.currentStatus = VpnStatus.Error then
    (false, s2, p1.2 :: q.2)
  else
    (s2.currentStatus == VpnStatus.Connected, s2, p1.2 :: q.2)

/-- `VpnConnectionManager::performConnection`: the three phases, each
short-circuiting on failure. -/
def performConnection (cb : Bool) (s : MgrState) (co : ConfigOutcome)
    (so : StartOutcome) (duringWait : List (String × String))
    (cancelRequested : Bool) : Bool × MgrState × List StatusEffect :=
  let p1 := prepareConfiguration cb s co
  if !p1.1 then p1
  else
    let p2 := initiateConnection cb p1.2.1 so
    if !p2.1 then (false, p2.2.1, p1.2.2 ++ p2.2.2)
    else
      let p3 := waitForConnectionCompletion cb p2.2.1 duringWait cancelRequested
      (p3.1, p3.2.1, p1.2.2 ++ p2.2.2 ++ p3.2.2)

/-- `VpnConnectionManager::connect`: reject when `connectionInProgress`,
otherwise emit `Connecting`, set the flags, run `performConnection` on the
async worker, and clear `connectionInProgress` when it finishes.  The
returned `Bool` is the value the `std::future<bool>` resolves to. -/
def connect (cb : Bool) (s : MgrState) (co : ConfigOutcome) (so : StartOutcome)
    (duringWait : List (String × String)) (cancelRequested : Bool) :
    Bool × MgrState × List StatusEffect :=
  if s.connectionInProgress then (false, s, [])
  else
    let p0 := updateStatus cb s VpnStatus.Connecting "Starting connection..."
    let s0 := { p0.1 with connectionInProgress := true, shouldStop := false }
    let p := performConnection cb s0 co so duringWait cancelRequested
    (p.1, { p.2.1 with connectionInProgress := false }, p0.2 :: p.2.2)

/-- `VpnConnectionManager::disconnect`: no-op when already `Disconnected`;
otherwise announce, set `shouldStop`, stop the client (which, when running,
delivers a `DISCONNECTED` event through the handler), join, and finish. -/
def disconnect (cb : Bool) (clientRunning : Bool) (s : MgrState) :
    MgrState × List StatusEffect :=
  if s.currentStatus = VpnStatus.Disconnected then (s, [])
  else
    let p1 := updateStatus cb s VpnStatus.Disconnected "Disconnecting..."
    let s1 := { p1.1 with shouldStop := true, clientStopped := true }
    let q := if clientRunning then
               handleConnectionEvent cb s1 "DISCONNECTED" "Connection stopped by user"
             else (s1, [])
    let p2 := updateStatus cb q.1 VpnStatus.Disconnected "Disconnected successfully"
    (p2.1, p1.2 :: q.2 ++ [p2.2])

/-- `VpnConnectionManager::getCurrentStatus`. -/
def getCurrentStatus (s : MgrState) : VpnStatus :=
  s.currentStatus

/-- `VpnConnectionManager::getLastError`. -/
def getLastError (s : MgrState) : String :=
  s.lastError

end VpnConnectionManager

/-- C3: a second `connect(path)` while `connectionInProgress` is set returns
a future resolved to `false` immediately, changes no state (so `lastError`
stays exactly as the first attempt set it), and fires no notification. -/
theorem C3_second_connect_rejected (cb : Bool) (s : MgrState)
    (co : ConfigOutcome) (so : StartOutcome)
    (duringWait : List (String × String)) (cancelRequested : Bool)
    (h : s.connectionInProgress = true) :
    VpnConnectionManager.connect cb s co so duringWait cancelRequested
      = (false, s, []) := by
  simp [VpnConnectionManager.connect, h]

/-- Witness for C3: a manager with an attempt in flight and
`lastError = "first error"` rejects a second `connect` unchanged. -/
theorem C3_second_connect_rejected_witness :
    VpnConnectionManager.connect true
      { currentStatus := VpnStatus.Connecting, lastError := "first error",
        shouldStop := false, connectionInProgress := true, clientStopped := false }
      (ConfigOutcome.valid []) StartOutcome.started [] false
      = (false,
         { currentStatus := VpnStatus.Connecting, lastError := "first error",
           shouldStop := false, connectionInProgress := true,
           clientStopped := false }, []) :=
  C3_second_connect_rejected true _ (ConfigOutcome.valid []) StartOutcome.started
    [] false rfl

/-- C7: `disconnect()` on an already-`Disconnected` manager is a no-op: the
state is returned unchanged and no status-callback notification (hence no
transition and no filter churn) is produced. -/
theorem C7_disconnect_idempotent (cb clientRunning : Bool) (s : MgrState)
    (h : s.currentStatus = VpnStatus.Disconnected) :
    VpnConnectionManager.disconnect cb clientRunning s = (s, []) := by
  simp [VpnConnectionManager.disconnect, h]

/-- Witness for C7 at the freshly constructed manager state. -/
theorem C7_disconnect_idempotent_witness :
    VpnConnectionManager.disconnect true true VpnConnectionManager.initState
      = (VpnConnectionManager.initState, []) :=
  C7_disconnect_idempotent true true VpnConnectionManager.initState rfl

/-- C10: every `updateStatus(newStatus, message)` call sets `currentStatus`
to `newStatus` and notifies all condition-variable waiters unconditionally,
invokes the status callback whenever one is set, but changes `lastError`
only when `message` is non-empty. -/
theorem C10_updateStatus_frame (cb : Bool) (s : MgrState) (st : VpnStatus)
    (m : String) :
    (VpnConnectionManager.updateStatus cb s st m).1.currentStatus = st ∧
    (VpnConnectionManager.updateStatus cb s st m).2.cvNotifiedAll = true ∧
    (VpnConnectionManager.updateStatus cb s st m).2.callbackInvoked = cb ∧
    (m = "" → (VpnConnectionManager.updateStatus cb s st m).1.lastError
      = s.lastError) ∧
    (m ≠ "" → (VpnConnectionManager.updateStatus cb s st m).1.lastError = m) := by
  refine ⟨rfl, rfl, rfl, ?_, ?_⟩
  · intro hm
    simp [VpnConnectionManager.updateStatus, hm]
  · intro hm
    simp [VpnConnectionManager.updateStatus, hm]

/-- Witness for C10: an empty-message update at a concrete state keeps
`lastError` while still notifying. -/
theorem C10_updateStatus_frame_witness :
    (VpnConnectionManager.updateStatus true
      { currentStatus := VpnStatus.Connecting, lastError := "kept",
        shouldStop := false, connectionInProgress := true,
        clientStopped := false } VpnStatus.Connected "").1.lastError = "kept" :=
  (C10_updateStatus_frame true
    { currentStatus := VpnStatus.Connecting, lastError := "kept",
      shouldStop := false, connectionInProgress := true, clientStopped := false }
    VpnStatus.Connected "").2.2.2.1 rfl

/-- C2 counterexample: an `AUTH_FAILED` event delivered to
`VpnConnectionManager::handleConnectionEvent` while `Connected` falls into
the unrecognized-event branch: the state is unchanged (no transition to
`Error` or `Disconnected`) and nothing is invoked, in particular no
`SecurityGate.block()` (the manager holds no security gate at all). -/
theorem C2_counterexample :
    VpnConnectionManager.handleConnectionEvent true
      { currentStatus := VpnStatus.Connected, lastError := "",
        shouldStop := false, connectionInProgress := false,
        clientStopped := false } "AUTH_FAILED" "auth failure"
      = ({ currentStatus := VpnStatus.Connected, lastError := "",
           shouldStop := false, connectionInProgress := false,
           clientStopped := false }, []) := by
  decide

/-! ## OpenVpnProtocol (OpenVPN 3 transport wrapper, part of this repository)

Translated from the OpenVPN 3 draft of the protocol wrapper.  Unlike
`VpnConnectionManager`, this class carries its own communication-blocking
flag (`blockCommunication` / `unblockCommunication` members) and its event
callback handles the transport failure events. -/

structure ProtoState where
  currentStatus : VpnStatus
  lastError : String
  shouldStop : Bool
  connectionInProgress : Bool
  communicationBlocked : Bool
  threadJoinable : Bool
  clientStopped : Bool
deriving DecidableEq, Repr

namespace OpenVpnProtocol

/-- `OpenVpnProtocol::updateStatus` (no status callback in this class). -/
def updateStatus (s : ProtoState) (newStatus : VpnStatus) (message : String) :
    ProtoState :=
  { s with currentStatus := newStatus,
           lastError := if message = "" then s.lastError else message }

/-- `OpenVpnProtocol::blockCommunication`. -/
def blockCommunication (s : ProtoState) : ProtoState :=
  { s with communicationBlocked := true }

/-- `OpenVpnProtocol::unblockCommunication`. -/
def unblockCommunication (s : ProtoState) : ProtoState :=
  { s with communicationBlocked := false }

/-- `OpenVpnProtocol::event`: the OpenVPN client API event callback. -/
def event (s : ProtoState) (name info : String) : ProtoState :=
  if name = "CONNECTED" then
    unblockCommunication (updateStatus s VpnStatus.Connected
      "VPN connection established")
  else if name = "DISCONNECTED" then
    blockCommunication (updateStatus s VpnStatus.Disconnected
      (if info = "" then "Disconnected" else info))
  else if name = "RECONNECTING" then
    updateStatus s VpnStatus.Connecting "Reconnecting..."
  else if name = "AUTH_FAILED" then
    blockCommunication (updateStatus s VpnStatus.Error "Authentication failed")
  else if name = "CERT_VERIFY_FAIL" then
    blockCommunication (updateStatus s VpnStatus.Error
      "Certificate verification failed")
  else if name = "TLS_ERROR" then
    blockCommunication (updateStatus s VpnStatus.Error ("TLS error: " ++ info))
  else if name = "CLIENT_RESTART" then
    updateStatus s VpnStatus.Connecting "Client restarting..."
  else
    s

/-- `OpenVpnProtocol::cleanupFailedConnection`: when the worker thread is
joinable, set `shouldStop`, stop the OpenVPN client and join; then always
re-block communication. -/
def cleanupFailedConnection (s : ProtoState) : ProtoState :=
  let s1 := if s.threadJoinable then
              { s with shouldStop := true, clientStopped := true,
                       threadJoinable := false }
            else s
  blockCommunication s1

/-- The `statusCv.wait_for` predicate of this class (same as the
manager's). -/
def protoConnPred (s : ProtoState) : Bool :=
  s.currentStatus == VpnStatus.Connected ||
  s.currentStatus == VpnStatus.Error || s.shouldStop

/-- `OpenVpnProtocol::waitForConnectionCompletion`, applied to the state at
wake-up (`wait_for` with a predicate returns the predicate's value then). -/
def waitForConnectionCompletion (s : ProtoState) : Bool × ProtoState :=
  let completed := protoConnPred s
  if !completed && !s.shouldStop then
    let s1 := updateStatus s VpnStatus.Error "Connection timeout"
    (false, cleanupFailedConnection s1)
  else if s.shouldStop then
    (false, updateStatus s VpnStatus.Disconnected "Connection cancelled by user")
  else
    (s.currentStatus == VpnStatus.Connected, s)

end OpenVpnProtocol

/-- C2 (amended): in `OpenVpnProtocol::event`, each of the transport failure
events `AUTH_FAILED`, `CERT_VERIFY_FAIL`, `TLS_ERROR` — from any state,
including `Connected` and after `connect` returned — transitions the status
to `Error` and re-blocks communication. -/
theorem C2_amended_failure_events_block (s : ProtoState) (name info : String)
    (h : name = "AUTH_FAILED" ∨ name = "CERT_VERIFY_FAIL" ∨ name = "TLS_ERROR") :
    (OpenVpnProtocol.event s name info).currentStatus = VpnStatus.Error ∧
    (OpenVpnProtocol.event s name info).communicationBlocked = true := by
  rcases h with h | h | h <;> subst h <;>
    simp [OpenVpnProtocol.event, OpenVpnProtocol.blockCommunication,
      OpenVpnProtocol.updateStatus]

/-- Witness for C2 (amended): a certificate-verification failure arriving
while `Connected` moves the status to `Error` and blocks. -/
theorem C2_amended_failure_events_block_witness :
    (OpenVpnProtocol.event
      { currentStatus := VpnStatus.Connected, lastError := "",
        shouldStop := false, connectionInProgress := false,
        communicationBlocked := false, threadJoinable := true,
        clientStopped := false } "CERT_VERIFY_FAIL" "").currentStatus
      = VpnStatus.Error :=
  (C2_amended_failure_events_block _ "CERT_VERIFY_FAIL" ""
    (Or.inr (Or.inl rfl))).1

/-- C5 (amended): in `OpenVpnProtocol`, a wait that wakes with no resolving
event (still `Connecting`, no stop request) resolves the connect future to
`false`, sets the status to `Error`, stops the OpenVPN client (the worker is
joinable during an attempt), and re-blocks communication. -/
theorem C5_amended_timeout_cancels_client (s : ProtoState)
    (h1 : s.currentStatus = VpnStatus.Connecting)
    (h2 : s.shouldStop = false)
    (h3 : s.threadJoinable = true) :
    (OpenVpnProtocol.waitForConnectionCompletion s).1 = false ∧
    (OpenVpnProtocol.waitForConnectionCompletion s).2.currentStatus
      = VpnStatus.Error ∧
    (OpenVpnProtocol.waitForConnectionCompletion s).2.clientStopped = true ∧
    (OpenVpnProtocol.waitForConnectionCompletion s).2.communicationBlocked
      = true := by
  simp [OpenVpnProtocol.waitForConnectionCompletion, OpenVpnProtocol.protoConnPred,
    OpenVpnProtocol.cleanupFailedConnection, OpenVpnProtocol.updateStatus,
    OpenVpnProtocol.blockCommunication, h1, h2, h3]

/-- Witness for C5 (amended) at a concrete mid-attempt state. -/
theorem C5_amended_timeout_cancels_client_witness :
    (OpenVpnProtocol.waitForConnectionCompletion
      { currentStatus := VpnStatus.Connecting, lastError := "",
        shouldStop := false, connectionInProgress := true,
        communicationBlocked := true, threadJoinable := true,
        clientStopped := false }).2.clientStopped = true :=
  (C5_amended_timeout_cancels_client _ rfl rfl rfl).2.2.1

/-- C5 counterexample: in `VpnConnectionManager`, an accepted `connect` whose
client never resolves does time out with the future resolving `false` and
the status set to `Error`, but `vpnClient->stopConnection()` is never
invoked — the underlying attempt is not cancelled, contrary to the claim. -/
theorem C5_counterexample :
    (VpnConnectionManager.connect true VpnConnectionManager.initState
      (ConfigOutcome.valid []) StartOutcome.started [] false).1 = false ∧
    (VpnConnectionManager.connect true VpnConnectionManager.initState
      (ConfigOutcome.valid []) StartOutcome.started [] false).2.1.currentStatus
      = VpnStatus.Error ∧
    (VpnConnectionManager.connect true VpnConnectionManager.initState
      (ConfigOutcome.valid []) StartOutcome.started [] false).2.1.clientStopped
      = false := by
  decide

/-- Helper for C4: the await phase resolves `true` exactly when the status
it leaves behind is `Connected`, whatever events were delivered and whether
or not a cancel was requested. -/
theorem wait_true_iff_connected (cb : Bool) (s : MgrState)
    (duringWait : List (String × String)) (cancelRequested : Bool) :
    ((VpnConnectionManager.waitForConnectionCompletion cb s duringWait
        cancelRequested).1 = true
      ↔ (VpnConnectionManager.waitForConnectionCompletion cb s duringWait
          cancelRequested).2.1.currentStatus = VpnStatus.Connected) := by
  simp only [VpnConnectionManager.waitForConnectionCompletion]
  split_ifs with h1 h2 h3 <;>
    simp_all [VpnConnectionManager.handleConnectionComplete,
      VpnConnectionManager.updateStatus, VpnConnectionManager.connPred]

/-- C4: for every accepted `connect(path)` call, the returned future
resolves `true` exactly when the state observable through
`getCurrentStatus()` after the attempt is `Connected`; every
failure, timeout, or cancellation path resolves it `false`. -/
theorem C4_connect_true_iff_connected (cb : Bool) (s : MgrState)
    (co : ConfigOutcome) (so : StartOutcome)
    (duringWait : List (String × String)) (cancelRequested : Bool)
    (h : s.connectionInProgress = false) :
    ((VpnConnectionManager.connect cb s co so duringWait cancelRequested).1
        = true
      ↔ VpnConnectionManager.getCurrentStatus
          (VpnConnectionManager.connect cb s co so duringWait
            cancelRequested).2.1 = VpnStatus.Connected) := by
  simp only [VpnConnectionManager.connect, VpnConnectionManager.getCurrentStatus,
    h, Bool.false_eq_true, if_false]
  cases co with
  | loadThrows msg =>
      simp [VpnConnectionManager.performConnection,
        VpnConnectionManager.prepareConfiguration,
        VpnConnectionManager.handleConnectionComplete,
        VpnConnectionManager.updateStatus]
  | loadEmpty =>
      simp [VpnConnectionManager.performConnection,
        VpnConnectionManager.prepareConfiguration,
        VpnConnectionManager.handleConnectionComplete,
        VpnConnectionManager.updateStatus]
  | invalid msg =>
      simp [VpnConnectionManager.performConnection,
        VpnConnectionManager.prepareConfiguration,
        VpnConnectionManager.handleConnectionComplete,
        VpnConnectionManager.updateStatus]
  | valid w =>
      cases so with
      | startFails err =>
          simp [VpnConnectionManager.performConnection,
            VpnConnectionManager.prepareConfiguration,
            VpnConnectionManager.initiateConnection,
            VpnConnectionManager.handleConnectionComplete,
            VpnConnectionManager.updateStatus]
      | started =>
          simp only [VpnConnectionManager.performConnection,
            VpnConnectionManager.prepareConfiguration,
            VpnConnectionManager.initiateConnection,
            VpnConnectionManager.updateStatus, Bool.not_true, Bool.false_eq_true,
            if_false]
          exact wait_true_iff_connected cb _ duringWait cancelRequested

/-- Witness for C4: from the fresh manager, a valid config, an accepted
start, and a client that emits `CONNECTED` make the future resolve
`true`. -/
theorem C4_connect_true_iff_connected_witness :
    (VpnConnectionManager.connect true VpnConnectionManager.initState
      (ConfigOutcome.valid []) StartOutcome.started [("CONNECTED", "")]
      false).1 = true :=
  (C4_connect_true_iff_connected true VpnConnectionManager.initState
    (ConfigOutcome.valid []) StartOutcome.started [("CONNECTED", "")] false
    rfl).mpr (by decide)

/-! ## Observer-notification ordering (C8) -/

/-- Event trace of a well-behaved client during one attempt's await phase:
progress `CONNECTING` events, optionally concluded by a single
`CONNECTED`. -/
def attemptEvents (infos : List String) (finalConnected : Bool) :
    List (String × String) :=
  infos.map (fun i => ("CONNECTING", i)) ++
    (if finalConnected then [("CONNECTED", "")] else [])

/-- Ordering property of one attempt's notification trace: nonempty, every
notification before the last reports `Connecting`, and the last one reports
`Connected` or `Error`. -/
def connectTraceOk (tr : List StatusEffect) : Prop :=
  tr ≠ [] ∧ (∀ e ∈ tr.dropLast, e.notified.status = VpnStatus.Connecting) ∧
  (∀ t, tr.getLast? = some t →
    (t.notified.status = VpnStatus.Connected ∨
     t.notified.status = VpnStatus.Error))

/-- A trace made of a `Connecting` run closed by one terminal notification
satisfies the ordering property. -/
theorem connectTraceOk_append_last (xs : List StatusEffect) (t : StatusEffect)
    (hxs : ∀ e ∈ xs, e.notified.status = VpnStatus.Connecting)
    (ht : t.notified.status = VpnStatus.Connected ∨
          t.notified.status = VpnStatus.Error) :
    connectTraceOk (xs ++ [t]) := by
  refine ⟨by simp, ?_, ?_⟩
  · intro e he
    rw [List.dropLast_concat] at he
    exact hxs e he
  · intro u hu
    rw [List.getLast?_concat] at hu
    cases hu
    exact ht

/-- Prepending further `Connecting` notifications preserves the ordering
property. -/
theorem connectTraceOk_prepend (xs tr : List StatusEffect)
    (hxs : ∀ e ∈ xs, e.notified.status = VpnStatus.Connecting)
    (h : connectTraceOk tr) : connectTraceOk (xs ++ tr) := by
  obtain ⟨hne, hdl, hl⟩ := h
  have hterm := hl _ (List.getLast?_eq_getLast tr hne)
  have hsplit : tr.dropLast ++ [tr.getLast hne] = tr :=
    List.dropLast_append_getLast hne
  rw [← hsplit, ← List.append_assoc]
  refine connectTraceOk_append_last _ _ ?_ hterm
  intro e he
  rcases List.mem_append.mp he with he | he
  · exact hxs e he
  · exact hdl e he

/-- Reduction of `handleConnectionEvent` at a literal `CONNECTING` event. -/
theorem handleConnectionEvent_connecting_eq (cb : Bool) (s : MgrState)
    (info : String) :
    VpnConnectionManager.handleConnectionEvent cb s "CONNECTING" info
      = ((VpnConnectionManager.updateStatus cb s VpnStatus.Connecting info).1,
         [(VpnConnectionManager.updateStatus cb s VpnStatus.Connecting info).2]) := by
  rfl

/-- Reduction of `handleConnectionEvent` at a literal `CONNECTED` event. -/
theorem handleConnectionEvent_connected_eq (cb : Bool) (s : MgrState)
    (info : String) :
    VpnConnectionManager.handleConnectionEvent cb s "CONNECTED" info
      = ((VpnConnectionManager.updateStatus cb s VpnStatus.Connected
            "VPN connection established").1,
         [(VpnConnectionManager.updateStatus cb s VpnStatus.Connected
            "VPN connection established").2]) := by
  rfl

/-- `processEvents` distributes over list append. -/
theorem processEvents_append (cb : Bool) (s : MgrState)
    (xs ys : List (String × String)) :
    VpnConnectionManager.processEvents cb s (xs ++ ys)
      = ((VpnConnectionManager.processEvents cb
            (VpnConnectionManager.processEvents cb s xs).1 ys).1,
         (VpnConnectionManager.processEvents cb s xs).2 ++
         (VpnConnectionManager.processEvents cb
            (VpnConnectionManager.processEvents cb s xs).1 ys).2) := by
  induction xs generalizing s with
  | nil => simp [VpnConnectionManager.processEvents]
  | cons e rest ih =>
      simp [VpnConnectionManager.processEvents, ih, List.append_assoc]

/-- Delivering a run of `CONNECTING` progress events keeps the status at
`Connecting`, does not touch `shouldStop`, and emits only `Connecting`
notifications. -/
theorem processEvents_connecting_run (cb : Bool) (infos : List String)
    (s : MgrState) (hs : s.currentStatus = VpnStatus.Connecting) :
    (VpnConnectionManager.processEvents cb s
        (infos.map (fun i => ("CONNECTING", i)))).1.currentStatus
      = VpnStatus.Connecting ∧
    (VpnConnectionManager.processEvents cb s
        (infos.map (fun i => ("CONNECTING", i)))).1.shouldStop = s.shouldStop ∧
    (∀ e ∈ (VpnConnectionManager.processEvents cb s
        (infos.map (fun i => ("CONNECTING", i)))).2,
      e.notified.status = VpnStatus.Connecting) := by
  induction infos generalizing s with
  | nil =>
      exact ⟨hs, rfl, by simp [VpnConnectionManager.processEvents]⟩
  | cons i rest ih =>
      simp only [List.map_cons, VpnConnectionManager.processEvents,
        handleConnectionEvent_connecting_eq]
      obtain ⟨h1, h2, h3⟩ := ih
        (VpnConnectionManager.updateStatus cb s VpnStatus.Connecting i).1 rfl
      refine ⟨h1, by rw [h2]; rfl, ?_⟩
      intro e he
      rcases List.mem_append.mp he with he | he
      · rcases List.mem_singleton.mp he with rfl
        rfl
      · exact h3 e he

/-- The await phase of an accepted attempt emits a `Connecting` run followed
by exactly one terminal notification, provided the client's events are a
`CONNECTING` run optionally closed by `CONNECTED`, and a cancellation is not
requested after the client already connected. -/
theorem wait_trace_ok (cb : Bool) (s : MgrState) (infos : List String)
    (fc cr : Bool)
    (hstop : s.shouldStop = false) (hfc : fc = true → cr = false) :
    connectTraceOk (VpnConnectionManager.waitForConnectionCompletion cb s
      (attemptEvents infos fc) cr).2.2 := by
  have hs1 : (VpnConnectionManager.updateStatus cb s VpnStatus.Connecting
      "Waiting for connection establishment...").1.currentStatus
      = VpnStatus.Connecting := rfl
  obtain ⟨hq1, hq2, hq3⟩ := processEvents_connecting_run cb infos
    (VpnConnectionManager.updateStatus cb s VpnStatus.Connecting
      "Waiting for connection establishment...").1 hs1
  have hqstop : (VpnConnectionManager.processEvents cb
      (VpnConnectionManager.updateStatus cb s VpnStatus.Connecting
        "Waiting for connection establishment...").1
      (infos.map (fun i => ("CONNECTING", i)))).1.shouldStop = false := by
    rw [hq2]; exact hstop
  cases fc with
  | false =>
      cases cr with
      | false =>
          have hpred : VpnConnectionManager.connPred
              (VpnConnectionManager.processEvents cb
                (VpnConnectionManager.updateStatus cb s VpnStatus.Connecting
                  "Waiting for connection establishment...").1
                (infos.map (fun i => ("CONNECTING", i)))).1 = false := by
            unfold VpnConnectionManager.connPred
            rw [hq1, hqstop]
            rfl
          simp only [attemptEvents, Bool.false_eq_true, if_false,
            List.append_nil, VpnConnectionManager.waitForConnectionCompletion,
            hqstop, hpred, Bool.not_false, eq_self_iff_true, if_true]
          refine connectTraceOk_append_last _ _ ?_ (Or.inr rfl)
          intro e he
          rcases List.mem_cons.mp he with rfl | he
          · rfl
          · exact hq3 e he
      | true =>
          simp only [attemptEvents, Bool.false_eq_true, if_false,
            List.append_nil, VpnConnectionManager.waitForConnectionCompletion,
            eq_self_iff_true, if_true]
          refine connectTraceOk_append_last _ _ ?_ (Or.inr rfl)
          intro e he
          rcases List.mem_cons.mp he with rfl | he
          · rfl
          · exact hq3 e he
  | true =>
      have hcr : cr = false := hfc rfl
      subst hcr
      rw [VpnConnectionManager.waitForConnectionCompletion]
      simp only [attemptEvents, eq_self_iff_true, if_true,
        processEvents_append, VpnConnectionManager.processEvents,
        handleConnectionEvent_connected_eq, List.append_nil]
      have hss : (VpnConnectionManager.updateStatus cb
          (VpnConnectionManager.processEvents cb
            (VpnConnectionManager.updateStatus cb s VpnStatus.Connecting
              "Waiting for connection establishment...").1
            (infos.map (fun i => ("CONNECTING", i)))).1
          VpnStatus.Connected "VPN connection established").1.shouldStop
          = false := hqstop
      have hpred2 : VpnConnectionManager.connPred
          (VpnConnectionManager.updateStatus cb
            (VpnConnectionManager.processEvents cb
              (VpnConnectionManager.updateStatus cb s VpnStatus.Connecting
                "Waiting for connection establishment...").1
              (infos.map (fun i => ("CONNECTING", i)))).1
            VpnStatus.Connected "VPN connection established").1 = true := rfl
      have hsc : (VpnConnectionManager.updateStatus cb
          (VpnConnectionManager.processEvents cb
            (VpnConnectionManager.updateStatus cb s VpnStatus.Connecting
              "Waiting for connection establishment...").1
            (infos.map (fun i => ("CONNECTING", i)))).1
          VpnStatus.Connected "VPN connection established").1.currentStatus
          = VpnStatus.Connected := rfl
      have hnerr : (VpnStatus.Connected = VpnStatus.Error) = False := by
        simp
      simp only [hss, hpred2, hsc, Bool.not_true, Bool.false_eq_true, if_false,
        hnerr]
      rw [← List.cons_append]
      refine connectTraceOk_append_last _ _ ?_ (Or.inl rfl)
      intro e he
      rcases List.mem_cons.mp he with rfl | he
      · rfl
      · exact hq3 e he

/-- A three-notification trace: two `Connecting` then a terminal. -/
theorem connectTraceOk_three (a b t : StatusEffect)
    (ha : a.notified.status = VpnStatus.Connecting)
    (hb : b.notified.status = VpnStatus.Connecting)
    (ht : t.notified.status = VpnStatus.Connected ∨
          t.notified.status = VpnStatus.Error) :
    connectTraceOk [a, b, t] := by
  show connectTraceOk ([a, b] ++ [t])
  refine connectTraceOk_append_last _ _ ?_ ht
  intro e he
  rcases List.mem_cons.mp he with rfl | he
  · exact ha
  · rcases List.mem_singleton.mp he with rfl
    exact hb

/-- A five-notification trace: four `Connecting` then a terminal. -/
theorem connectTraceOk_five (a b c d t : StatusEffect)
    (ha : a.notified.status = VpnStatus.Connecting)
    (hb : b.notified.status = VpnStatus.Connecting)
    (hc : c.notified.status = VpnStatus.Connecting)
    (hd : d.notified.status = VpnStatus.Connecting)
    (ht : t.notified.status = VpnStatus.Connected ∨
          t.notified.status = VpnStatus.Error) :
    connectTraceOk [a, b, c, d, t] := by
  show connectTraceOk ([a, b, c, d] ++ [t])
  refine connectTraceOk_append_last _ _ ?_ ht
  intro e he
  rcases List.mem_cons.mp he with rfl | he
  · exact ha
  · rcases List.mem_cons.mp he with rfl | he
    · exact hb
    · rcases List.mem_cons.mp he with rfl | he
      · exact hc
      · rcases List.mem_singleton.mp he with rfl
        exact hd

/-- C8 (amended): for every accepted `connect` attempt in which the client
emits only `CONNECTING` progress events, optionally closed by a single
`CONNECTED`, and no cancellation arrives after the client connected, the
status-observer notification sequence is one or more `Connecting`
notifications followed by exactly one terminal notification (`Connected` or
`Error`); nothing follows the terminal one. -/
theorem C8_amended_notification_order (cb : Bool) (s : MgrState)
    (co : ConfigOutcome) (so : StartOutcome) (infos : List String)
    (fc cr : Bool) (h : s.connectionInProgress = false)
    (hfc : fc = true → cr = false) :
    connectTraceOk (VpnConnectionManager.connect cb s co so
      (attemptEvents infos fc) cr).2.2 := by
  simp only [VpnConnectionManager.connect, h, Bool.false_eq_true, if_false]
  cases co with
  | loadThrows msg =>
      simp only [VpnConnectionManager.performConnection,
        VpnConnectionManager.prepareConfiguration, Bool.not_false,
        eq_self_iff_true, if_true]
      exact connectTraceOk_three _ _ _ rfl rfl (Or.inr rfl)
  | loadEmpty =>
      simp only [VpnConnectionManager.performConnection,
        VpnConnectionManager.prepareConfiguration, Bool.not_false,
        eq_self_iff_true, if_true]
      exact connectTraceOk_three _ _ _ rfl rfl (Or.inr rfl)
  | invalid msg =>
      simp only [VpnConnectionManager.performConnection,
        VpnConnectionManager.prepareConfiguration, Bool.not_false,
        eq_self_iff_true, if_true]
      exact connectTraceOk_three _ _ _ rfl rfl (Or.inr rfl)
  | valid w =>
      cases so with
      | startFails err =>
          simp only [VpnConnectionManager.performConnection,
            VpnConnectionManager.prepareConfiguration,
            VpnConnectionManager.initiateConnection, Bool.not_false,
            Bool.not_true, Bool.false_eq_true, if_false,
            eq_self_iff_true, if_true]
          exact connectTraceOk_five _ _ _ _ _ rfl rfl rfl rfl (Or.inr rfl)
      | started =>
          simp only [VpnConnectionManager.performConnection,
            VpnConnectionManager.prepareConfiguration,
            VpnConnectionManager.initiateConnection, Bool.not_false,
            Bool.not_true, Bool.false_eq_true, if_false,
            eq_self_iff_true, if_true]
          rw [← List.cons_append]
          refine connectTraceOk_prepend _ _ ?_
            (wait_trace_ok cb _ infos fc cr rfl hfc)
          intro e he
          rcases List.mem_cons.mp he with rfl | he
          · rfl
          · rcases List.mem_append.mp he with he | he
            · rcases List.mem_cons.mp he with rfl | he
              · rfl
              · rcases List.mem_singleton.mp he with rfl
                rfl
            · rcases List.mem_cons.mp he with rfl | he
              · rfl
              · rcases List.mem_singleton.mp he with rfl
                rfl

/-- Witness for C8 (amended): a concrete successful attempt with one
progress event. -/
theorem C8_amended_notification_order_witness :
    connectTraceOk (VpnConnectionManager.connect true
      VpnConnectionManager.initState (ConfigOutcome.valid [])
      StartOutcome.started (attemptEvents ["TLS handshake"] true) false).2.2 :=
  C8_amended_notification_order true VpnConnectionManager.initState
    (ConfigOutcome.valid []) StartOutcome.started ["TLS handshake"] true false
    rfl (fun _ => rfl)

/-- C8 counterexample: an accepted attempt whose configuration fails
validation produces two `Connecting` notifications ("Starting
connection..." and "Loading configuration...") before the terminal `Error`
one — not exactly one `Connecting` notification as claimed. -/
theorem C8_counterexample :
    ((VpnConnectionManager.connect true VpnConnectionManager.initState
        (ConfigOutcome.invalid "Configuration not set for client mode")
        StartOutcome.started [] false).2.2.countP
      (fun e => e.notified.status == VpnStatus.Connecting)) = 2 := by
  decide

end SIAVPN
